import Mathlib

/-!
Shallow embedding of the collider-platform frontend core: the Vuex store
(src/frontend/src/store/index.js), the 3D scene renderer
(src/frontend/src/components/EventDisplay3D.vue) and the analytics
renderer (src/frontend/src/views/AnalysisDashboard.vue), together with
theorems checking the specification's claims about them.

JavaScript numbers are modelled as real numbers, integer species codes as
Int, nullable values as Option, and a rejected promise from the API layer
as the error branch of Except.  Store actions are modelled as the trace of
commits they perform for a given outcome of the wrapped API call; the
mutations are modelled as a state-transition function on the trace.
-/

namespace Collider

/-! ## Data model (spec section 3, store/index.js, api.service.js) -/

/-- Columnar particle arrays of an event: parallel ordered sequences
`px, py, pz, energy` (floats) and `pdg_id` (integer species codes). -/
structure Particles where
  px : List ℝ
  py : List ℝ
  pz : List ℝ
  energy : List ℝ
  pdg_id : List Int

/-- An event as consumed by the renderer.  `particles` is optional: the
component guards against payloads with no `particles` array. -/
structure Event where
  event_id : String
  num_particles : Nat
  particles : Option Particles

/-- Kinematics summary attached to a single-event response; optional
fields may be absent. -/
structure Kinematics where
  invariant_mass : Option ℝ
  missing_et : Option ℝ
  scalar_ht : Option ℝ
  num_jets : Option Nat
  num_leptons : Option Nat

/-- Body of `GET /events/(event_id)`: an event plus its kinematics.  This
is the value `fetchEvent` commits as the current event. -/
structure EventDetail where
  event : Event
  kinematics : Option Kinematics

/-- Body of `GET /events`: the paged event list. -/
structure EventsResponse where
  events : List Event

/-- Server-side statistics summary, consumed read-only. -/
structure Statistics where
  total_events : Nat
  events_with_leptons : Nat
  events_with_jets : Nat
  average_invariant_mass : Option ℝ

/-- A stored detector configuration; `is_active` flags the one in use. -/
structure DetectorConfig where
  id : Nat
  name : String
  magnetic_field : ℝ
  is_active : Bool

/-- An error rejected by the Data Client (axios): carries a message that
the store actions read via `error.message`. -/
structure ApiError where
  message : String

/-! ## Reactive state store (src/frontend/src/store/index.js) -/

/-- The store state: `state` object of `createStore`. -/
structure UIState where
  currentEvent : Option EventDetail
  events : List Event
  statistics : Option Statistics
  detectorConfig : Option DetectorConfig
  loading : Bool
  error : Option String

/-- The initial store state from `createStore`. -/
def initialState : UIState :=
  { currentEvent := none, events := [], statistics := none,
    detectorConfig := none, loading := false, error := none }

/-- One mutation call `commit(name, payload)`; one constructor per
mutation of the store. -/
inductive Commit where
  | SET_CURRENT_EVENT (event : Option EventDetail)
  | SET_EVENTS (events : List Event)
  | SET_STATISTICS (stats : Option Statistics)
  | SET_DETECTOR_CONFIG (config : Option DetectorConfig)
  | SET_LOADING (loading : Bool)
  | SET_ERROR (error : Option String)

/-- Whether a commit is a `SET_LOADING` mutation. -/
def Commit.isSetLoading : Commit → Bool
  | .SET_LOADING _ => true
  | _ => false

/-- Whether a commit replaces one of the four data fields
(`currentEvent`, `events`, `statistics`, `detectorConfig`). -/
def Commit.isDataCommit : Commit → Bool
  | .SET_CURRENT_EVENT _ => true
  | .SET_EVENTS _ => true
  | .SET_STATISTICS _ => true
  | .SET_DETECTOR_CONFIG _ => true
  | _ => false

/-- The mutations: each atomically replaces one field of the state. -/
def applyCommit (s : UIState) : Commit → UIState
  | .SET_CURRENT_EVENT e => { s with currentEvent := e }
  | .SET_EVENTS es => { s with events := es }
  | .SET_STATISTICS st => { s with statistics := st }
  | .SET_DETECTOR_CONFIG c => { s with detectorConfig := c }
  | .SET_LOADING l => { s with loading := l }
  | .SET_ERROR e => { s with error := e }

/-- Run a trace of commits left to right against a state. -/
def applyCommits (s : UIState) (cs : List Commit) : UIState :=
  cs.foldl applyCommit s

/-- Action `fetchEvent`: sets loading, clears the error, awaits
`apiService.getEvent`, commits the result in the try branch or the error
message in the catch branch, and resets loading in the finally branch.
The argument is the outcome of the awaited call. -/
def fetchEvent (outcome : Except ApiError EventDetail) : List Commit :=
  [Commit.SET_LOADING true, Commit.SET_ERROR none] ++
    (match outcome with
     | .ok ev => [Commit.SET_CURRENT_EVENT (some ev)]
     | .error e => [Commit.SET_ERROR (some e.message)]) ++
    [Commit.SET_LOADING false]

/-- Action `fetchEvents`: same bracketing as `fetchEvent`, committing
`response.events` on success. -/
def fetchEvents (outcome : Except ApiError EventsResponse) : List Commit :=
  [Commit.SET_LOADING true, Commit.SET_ERROR none] ++
    (match outcome with
     | .ok r => [Commit.SET_EVENTS r.events]
     | .error e => [Commit.SET_ERROR (some e.message)]) ++
    [Commit.SET_LOADING false]

/-- Action `fetchStatistics`: a bare try/catch with no loading or
error-clearing bracket; commits the statistics or the error message. -/
def fetchStatistics (outcome : Except ApiError Statistics) : List Commit :=
  match outcome with
  | .ok st => [Commit.SET_STATISTICS (some st)]
  | .error e => [Commit.SET_ERROR (some e.message)]

/-- Action `fetchDetectorConfigs`: on success, when the returned list is
non-empty, commits `configs.find(c => c.is_active) || configs[0]`; on an
empty list commits nothing; on failure commits the error message. -/
def fetchDetectorConfigs (outcome : Except ApiError (List DetectorConfig)) :
    List Commit :=
  match outcome with
  | .ok configs =>
    match configs with
    | [] => []
    | c0 :: _ =>
      [Commit.SET_DETECTOR_CONFIG
        (some ((configs.find? (fun c => c.is_active)).getD c0))]
  | .error e => [Commit.SET_ERROR (some e.message)]

/-! ## Scene renderer (src/frontend/src/components/EventDisplay3D.vue) -/

/-- A three-component display coordinate (THREE.Vector3). -/
structure Vec3 where
  x : ℝ
  y : ℝ
  z : ℝ

/-- Two-argument arctangent, the semantics of `Math.atan2(y, x)`:
the argument of the complex number `x + y*i`. -/
noncomputable def atan2 (y x : ℝ) : ℝ :=
  Complex.arg (Complex.mk x y)

/-- A per-event draw primitive added to the scene: a polyline track
(THREE.Line over a point list, with a color) or a sphere marker
(THREE.Mesh of a SphereGeometry at a position, with a radius and a
color).  Colors are the hexadecimal RGB numbers from the source. -/
inductive Primitive where
  | line (points : List Vec3) (color : Nat)
  | sphereMarker (position : Vec3) (radius : ℝ) (color : Nat)

/-- Whether a primitive is a polyline track. -/
def Primitive.isLine : Primitive → Bool
  | .line _ _ => true
  | _ => false

/-- Whether a primitive is a sphere marker. -/
def Primitive.isMarker : Primitive → Bool
  | .sphereMarker _ _ _ => true
  | _ => false

/-- The sample-point counts of the polyline primitives of a list, in
order; markers contribute nothing. -/
def linePointCounts (l : List Primitive) : List Nat :=
  l.filterMap (fun p =>
    match p with
    | .line pts _ => some pts.length
    | _ => none)

/-- `const numPoints = 50` in `renderEvent`. -/
def numPoints : Nat := 50

/-- `const maxR = 3.0` in `renderEvent`: the maximum track radius. -/
def maxR : ℝ := 3.0

/-- The color chosen by the `pdgId` branch in `renderEvent`; its argument
is the already-absolute species code `Math.abs(particles.pdg_id[i])`. -/
def trackColor (pdgId : Nat) : Nat :=
  if pdgId = 11 then 0xff0000
  else if pdgId = 13 then 0x00ff00
  else if pdgId = 22 then 0xffff00
  else 0x00ffff

/-- The sample point pushed at loop index `j` of the inner loop of
`renderEvent`: with `t = j/numPoints`, `r = t*min(pt/20, maxR)`,
the point `Vector3(r*cos(phi), t*pz/10, r*sin(phi))` — the planar y and
the longitudinal z are swapped for display. -/
noncomputable def trackPoint (px py pz : ℝ) (j : Nat) : Vec3 :=
  let pt := Real.sqrt (px * px + py * py)
  let phi := atan2 py px
  let t : ℝ := (j : ℝ) / (numPoints : ℝ)
  let r := t * min (pt / 20) maxR
  let x := r * Real.cos phi
  let y := r * Real.sin phi
  let z := t * pz / 10
  ⟨x, z, y⟩

/-- The 51 sample points (`j = 0..numPoints` inclusive) of one track. -/
noncomputable def trackPoints (px py pz : ℝ) : List Vec3 :=
  (List.range (numPoints + 1)).map (trackPoint px py pz)

/-- The polyline primitive emitted for one particle. -/
noncomputable def trackPrimitive (px py pz : ℝ) (pdg : Int) : Primitive :=
  Primitive.line (trackPoints px py pz) (trackColor pdg.natAbs)

/-- The origin marker emitted for one particle: the source never sets the
mesh position, so it stays at the THREE.Object3D default, the origin;
the geometry is `SphereGeometry(0.05, 8, 8)`. -/
noncomputable def markerPrimitive (pdg : Int) : Primitive :=
  Primitive.sphereMarker ⟨0, 0, 0⟩ 0.05 (trackColor pdg.natAbs)

/-- Component scene state relevant to `renderEvent`: the objects the
method never touches (detector shells, lights, helpers) and the tracked
`particleMeshes` registry of per-event primitives currently in the
scene; `renderEvent` removes exactly the registered per-event primitives
from the scene before drawing. -/
structure SceneState where
  fixedObjects : List Primitive
  particleMeshes : List Primitive

/-- The clearing prologue of `renderEvent`: every mesh in
`particleMeshes` is removed from the scene and the registry is reset. -/
def clearParticles (s : SceneState) : SceneState :=
  { s with particleMeshes := [] }

/-- `scene.add(p)` followed by `particleMeshes.push(p)`. -/
def addPrimitive (s : SceneState) (p : Primitive) : SceneState :=
  { s with particleMeshes := s.particleMeshes ++ [p] }

/-- `renderEvent`: clear the previous per-event primitives, return if the
event or its `particles` array is absent, otherwise loop over
`i = 0 .. particles.px.length - 1` adding one track and one marker per
particle.  Out-of-range reads of the parallel arrays are modelled with
default values; they do not occur when the arrays are parallel. -/
noncomputable def renderEvent (s : SceneState) (event : Option Event) :
    SceneState :=
  let s1 := clearParticles s
  match event with
  | none => s1
  | some e =>
    match e.particles with
    | none => s1
    | some ps =>
      (List.range ps.px.length).foldl
        (fun acc i =>
          addPrimitive
            (addPrimitive acc
              (trackPrimitive (ps.px.getD i 0) (ps.py.getD i 0)
                (ps.pz.getD i 0) (ps.pdg_id.getD i 0)))
            (markerPrimitive (ps.pdg_id.getD i 0)))
        s1

/-- The list of per-event primitives one call to `renderEvent` emits, in
emission order: track then marker for each particle index. -/
noncomputable def renderEventMeshes (event : Option Event) : List Primitive :=
  match event with
  | none => []
  | some e =>
    match e.particles with
    | none => []
    | some ps =>
      (List.range ps.px.length).flatMap
        (fun i =>
          [trackPrimitive (ps.px.getD i 0) (ps.py.getD i 0)
            (ps.pz.getD i 0) (ps.pdg_id.getD i 0),
           markerPrimitive (ps.pdg_id.getD i 0)])

/-! ## Component lifecycle effects (EventDisplay3D.vue) -/

/-- The externally visible resource effects of the 3D component's
lifecycle methods. -/
inductive Effect where
  | createScene
  | createCamera
  | createRenderer
  | appendCanvasToContainer
  | createControls
  | addLights
  | addGridHelper
  | addAxesHelper
  | addResizeListener
  | controlsUpdate
  | renderScene
  | requestAnimationFrame
  | cancelAnimationFrame
  | removeResizeListener
  | disposeRenderer
  | disposeControls
deriving DecidableEq

/-- The effects of `initThreeJS`, in order; its last step registers the
window-resize listener. -/
def initThreeJSEffects : List Effect :=
  [.createScene, .createCamera, .createRenderer, .appendCanvasToContainer,
   .createControls, .addLights, .addGridHelper, .addAxesHelper,
   .addResizeListener]

/-- The effects of one tick of `animate`: it re-schedules itself with
`requestAnimationFrame(this.animate)` and then updates and renders. -/
def animateEffects : List Effect :=
  [.requestAnimationFrame, .controlsUpdate, .renderScene]

/-- The effects of `beforeUnmount`, given whether the renderer and the
controls are non-null: it disposes those two objects and does nothing
else. -/
def beforeUnmountEffects (hasRenderer hasControls : Bool) : List Effect :=
  (if hasRenderer then [Effect.disposeRenderer] else []) ++
    (if hasControls then [Effect.disposeControls] else [])

/-! ## Analytics renderer (src/frontend/src/views/AnalysisDashboard.vue) -/

/-- Body of `POST /analysis/histogram`: `bins` holds the N+1 bin edges,
`values` the N bar heights. -/
structure HistogramResult where
  bins : List ℝ
  values : List ℝ
  num_events : Nat

/-- The bin-center loop of `renderHistogram`: for
`i = 0 .. bins.length - 2` push `(bins[i] + bins[i+1]) / 2`. -/
noncomputable def binCenters (bins : List ℝ) : List ℝ :=
  (List.range (bins.length - 1)).map
    (fun i => (bins.getD i 0 + bins.getD (i + 1) 0) / 2)

/-- The x-axis labels `renderHistogram` computes for a histogram
response (before decimal formatting). -/
noncomputable def renderHistogramLabels (h : HistogramResult) : List ℝ :=
  binCenters h.bins

/-! ## Concrete fixtures used to instantiate theorems -/

/-- A concrete statistics payload. -/
def stats0 : Statistics := ⟨120, 30, 80, none⟩

/-- A concrete histogram response with three bin edges and two counts. -/
noncomputable def hist0 : HistogramResult := ⟨[0, 2, 4], [5, 7], 120⟩

/-- Concrete parallel particle arrays with a single electron at rest. -/
noncomputable def ps0 : Particles := ⟨[0], [0], [0], [0], [11]⟩

/-- A concrete event holding `ps0`. -/
noncomputable def ev0 : Event := ⟨"evt-0001", 1, some ps0⟩

/-- A concrete scene state with a stale per-event marker from a prior
call still registered. -/
noncomputable def scene0 : SceneState :=
  ⟨[], [Primitive.sphereMarker ⟨0, 0, 0⟩ 0.05 0x00ffff]⟩

/-! ## Helper lemmas -/

/-- `Array.prototype.find` returns the head of the filtered list. -/
theorem find?_eq_filter_head? {α : Type} (p : α → Bool) (l : List α) :
    l.find? p = (l.filter p).head? := by
  induction l with
  | nil => rfl
  | cons a t ih =>
    by_cases h : p a = true
    · rw [List.find?_cons_of_pos t h, List.filter_cons_of_pos h, List.head?_cons]
    · rw [List.find?_cons_of_neg t h, List.filter_cons_of_neg h, ih]

/-- Length of a flatMap that emits a two-element list per index. -/
theorem flatMap_pair_length {α : Type} (f g : Nat → α) (n : Nat) :
    ((List.range n).flatMap (fun k => [f k, g k])).length = 2 * n := by
  induction n with
  | zero => rfl
  | succ m ih =>
    rw [List.range_succ, List.flatMap_append]
    simp only [List.length_append, ih]
    simp
    omega

/-- The even positions of a pairwise flatMap hold the first components. -/
theorem flatMap_pair_getElem_left {α : Type} (f g : Nat → α) (n i : Nat)
    (h : i < n) :
    ((List.range n).flatMap (fun k => [f k, g k]))[2 * i]? = some (f i) := by
  induction n with
  | zero => omega
  | succ m ih =>
    rw [List.range_succ, List.flatMap_append]
    rcases Nat.lt_or_ge i m with hm | hm
    · rw [List.getElem?_append_left (by rw [flatMap_pair_length]; omega)]
      exact ih hm
    · have hi : i = m := by omega
      rw [hi, List.getElem?_append_right (by rw [flatMap_pair_length])]
      rw [flatMap_pair_length]
      simp [Nat.sub_self]

/-- The odd positions of a pairwise flatMap hold the second components. -/
theorem flatMap_pair_getElem_right {α : Type} (f g : Nat → α) (n i : Nat)
    (h : i < n) :
    ((List.range n).flatMap (fun k => [f k, g k]))[2 * i + 1]? = some (g i) := by
  induction n with
  | zero => omega
  | succ m ih =>
    rw [List.range_succ, List.flatMap_append]
    rcases Nat.lt_or_ge i m with hm | hm
    · rw [List.getElem?_append_left (by rw [flatMap_pair_length]; omega)]
      exact ih hm
    · have hi : i = m := by omega
      rw [hi, List.getElem?_append_right (by rw [flatMap_pair_length]; omega)]
      rw [flatMap_pair_length]
      simp [Nat.add_sub_cancel_left]

/-- Filtering a pairwise flatMap by a predicate that holds on every first
component and fails on every second component keeps one item per index. -/
theorem flatMap_pair_filter_fst {α : Type} (p : α → Bool) (f g : Nat → α)
    (n : Nat) (hf : ∀ k, p (f k) = true) (hg : ∀ k, p (g k) = false) :
    (((List.range n).flatMap (fun k => [f k, g k])).filter p).length = n := by
  induction n with
  | zero => rfl
  | succ m ih =>
    rw [List.range_succ, List.flatMap_append, List.filter_append]
    simp [List.filter_cons, hf, hg, ih]

/-- Filtering a pairwise flatMap by a predicate that fails on every first
component and holds on every second component keeps one item per index. -/
theorem flatMap_pair_filter_snd {α : Type} (p : α → Bool) (f g : Nat → α)
    (n : Nat) (hf : ∀ k, p (f k) = false) (hg : ∀ k, p (g k) = true) :
    (((List.range n).flatMap (fun k => [f k, g k])).filter p).length = n := by
  induction n with
  | zero => rfl
  | succ m ih =>
    rw [List.range_succ, List.flatMap_append, List.filter_append]
    simp [List.filter_cons, hf, hg, ih]

/-- `linePointCounts` distributes over append. -/
theorem linePointCounts_append (l1 l2 : List Primitive) :
    linePointCounts (l1 ++ l2) = linePointCounts l1 ++ linePointCounts l2 :=
  List.filterMap_append l1 l2 _

/-- Over a pairwise flatMap whose first components are polylines of 51
points and whose second components are not polylines, the point counts
are exactly n copies of 51. -/
theorem linePointCounts_pair (n : Nat) (f g : Nat → Primitive)
    (hf : ∀ k, linePointCounts [f k] = [51])
    (hg : ∀ k, linePointCounts [g k] = []) :
    linePointCounts ((List.range n).flatMap (fun k => [f k, g k])) =
      List.replicate n 51 := by
  induction n with
  | zero => rfl
  | succ m ih =>
    have hsplit : (List.range (m + 1)).flatMap (fun k => [f k, g k]) =
        (List.range m).flatMap (fun k => [f k, g k]) ++ ([f m] ++ [g m]) := by
      rw [List.range_succ, List.flatMap_append]
      simp
    rw [hsplit, linePointCounts_append, linePointCounts_append, ih, hf, hg,
      List.replicate_succ' m 51]
    simp

/-- Unrolling the add-track-add-marker loop of `renderEvent`: the final
scene keeps the untouched objects and appends one track and one marker
per index to the registry. -/
theorem foldl_addPair (l : List Nat) (s : SceneState) (f g : Nat → Primitive) :
    l.foldl (fun acc i => addPrimitive (addPrimitive acc (f i)) (g i)) s =
      ⟨s.fixedObjects, s.particleMeshes ++ l.flatMap (fun i => [f i, g i])⟩ := by
  induction l generalizing s with
  | nil => simp
  | cons a t ih =>
    rw [List.foldl_cons, ih]
    simp [addPrimitive]

/-- `renderEvent` leaves the fixed scene objects alone and replaces the
per-event registry with the freshly emitted primitives. -/
theorem renderEvent_eq (s : SceneState) (ev : Option Event) :
    renderEvent s ev = ⟨s.fixedObjects, renderEventMeshes ev⟩ := by
  cases ev with
  | none => rfl
  | some e =>
    cases hp : e.particles with
    | none => simp [renderEvent, renderEventMeshes, hp, clearParticles]
    | some ps =>
      simp [renderEvent, renderEventMeshes, hp, clearParticles, foldl_addPair]

/-! ## Claim theorems -/

/-- Claim C1, counterexample: the claim asserts that every store action,
fetchStatistics included, sets loading to true at the start and ends with
loading false.  On a successful statistics fetch the action performs no
SET_LOADING commit at all, and run from a state whose loading flag is
true it ends with loading still true. -/
theorem fetchStatistics_no_loading_bracket :
    (fetchStatistics (Except.ok stats0)).countP Commit.isSetLoading = 0 ∧
    (applyCommits { initialState with loading := true }
        (fetchStatistics (Except.ok stats0))).loading = true := by
  exact ⟨rfl, rfl⟩

/-- Claim C1, amended: fetchEvent and fetchEvents perform the full
sequence — first commit SET_LOADING true, second commit SET_ERROR none,
last commit SET_LOADING false, final state loading = false for every
outcome of the wrapped call — while fetchStatistics and
fetchDetectorConfigs perform no SET_LOADING commit and leave the loading
flag exactly as they found it. -/
theorem actions_loading_discipline (s : UIState)
    (o1 : Except ApiError EventDetail) (o2 : Except ApiError EventsResponse)
    (o3 : Except ApiError Statistics)
    (o4 : Except ApiError (List DetectorConfig)) :
    (fetchEvent o1).head? = some (Commit.SET_LOADING true) ∧
    (fetchEvent o1)[1]? = some (Commit.SET_ERROR none) ∧
    (fetchEvent o1).getLast? = some (Commit.SET_LOADING false) ∧
    (applyCommits s (fetchEvent o1)).loading = false ∧
    (fetchEvents o2).head? = some (Commit.SET_LOADING true) ∧
    (fetchEvents o2)[1]? = some (Commit.SET_ERROR none) ∧
    (fetchEvents o2).getLast? = some (Commit.SET_LOADING false) ∧
    (applyCommits s (fetchEvents o2)).loading = false ∧
    (fetchStatistics o3).countP Commit.isSetLoading = 0 ∧
    (applyCommits s (fetchStatistics o3)).loading = s.loading ∧
    (fetchDetectorConfigs o4).countP Commit.isSetLoading = 0 ∧
    (applyCommits s (fetchDetectorConfigs o4)).loading = s.loading := by
  obtain v1 | v1 := o1 <;> obtain v2 | v2 := o2 <;> obtain v3 | v3 := o3 <;>
    obtain v4 | v4 := o4 <;>
    first
      | exact ⟨rfl, rfl, rfl, rfl, rfl, rfl, rfl, rfl, rfl, rfl, rfl, rfl⟩
      | (obtain _ | ⟨c0, t0⟩ := v4 <;>
          exact ⟨rfl, rfl, rfl, rfl, rfl, rfl, rfl, rfl, rfl, rfl, rfl, rfl⟩)

/-- Claim C2: the specification requires teardown to cancel the
render-loop task and remove the window-resize listener; the component's
beforeUnmount only disposes the renderer and the controls.  Whatever the
nullness of those two objects, its effect list contains neither a
removeResizeListener nor a cancelAnimationFrame effect, although
initThreeJS did register the listener and animate does re-schedule
itself each frame. -/
theorem beforeUnmount_missing_cleanup (hasRenderer hasControls : Bool) :
    Effect.removeResizeListener ∉ beforeUnmountEffects hasRenderer hasControls ∧
    Effect.cancelAnimationFrame ∉ beforeUnmountEffects hasRenderer hasControls ∧
    Effect.addResizeListener ∈ initThreeJSEffects ∧
    Effect.requestAnimationFrame ∈ animateEffects := by
  cases hasRenderer <;> cases hasControls <;>
    exact ⟨by decide, by decide, by decide, by decide⟩

/-- Claim C3: on a successful fetch, fetchDetectorConfigs commits exactly
one config when the list is non-empty and none when it is empty, and the
published config is the first active one, else the first element, else
the detectorConfig field is left untouched. -/
theorem fetchDetectorConfigs_selection (s : UIState)
    (configs : List DetectorConfig) :
    ((fetchDetectorConfigs (Except.ok configs)).length =
      if configs.isEmpty then 0 else 1) ∧
    (applyCommits s (fetchDetectorConfigs (Except.ok configs))).detectorConfig =
      (match configs.filter (fun c => c.is_active) with
       | a :: _ => some a
       | [] =>
         match configs with
         | c :: _ => some c
         | [] => s.detectorConfig) := by
  cases configs with
  | nil => exact ⟨rfl, rfl⟩
  | cons c0 t =>
    refine ⟨rfl, ?_⟩
    have hfind := find?_eq_filter_head? (fun c => c.is_active) (c0 :: t)
    cases hf : (c0 :: t).filter (fun c => c.is_active) with
    | nil =>
      rw [hf] at hfind
      simp [applyCommits, applyCommit, fetchDetectorConfigs, hfind, hf]
    | cons a u =>
      rw [hf] at hfind
      simp [applyCommits, applyCommit, fetchDetectorConfigs, hfind, hf]

/-- Claim C6: for every HistogramResult, renderHistogram computes
exactly len(bins) - 1 bin-center labels; whenever the invariant
len(bins) == len(values) + 1 holds, that count equals len(values); and
for every in-range k the k-th label is the arithmetic mean of edges k
and k+1. -/
theorem binCenters_correct (h : HistogramResult) (k : Nat) :
    (renderHistogramLabels h).length = h.bins.length - 1 ∧
    (h.bins.length = h.values.length + 1 →
      (renderHistogramLabels h).length = h.values.length) ∧
    (k + 1 < h.bins.length →
      (renderHistogramLabels h)[k]? =
        some ((h.bins.getD k 0 + h.bins.getD (k + 1) 0) / 2)) := by
  refine ⟨?_, ?_, ?_⟩
  · simp [renderHistogramLabels, binCenters]
  · intro hinv
    simp [renderHistogramLabels, binCenters, hinv]
  · intro hk
    have hk1 : k < h.bins.length - 1 := by omega
    simp [renderHistogramLabels, binCenters, List.getElem?_range hk1]

/-- Claim C6 witness: the theorem instantiated at a concrete histogram
with edges [0, 2, 4] and values [5, 7], at label index 0, with both
inner hypotheses discharged. -/
theorem binCenters_correct_witness :
    (renderHistogramLabels hist0).length = hist0.bins.length - 1 ∧
    (renderHistogramLabels hist0).length = hist0.values.length ∧
    (renderHistogramLabels hist0)[0]? =
      some ((hist0.bins.getD 0 0 + hist0.bins.getD (0 + 1) 0) / 2) := by
  obtain ⟨h1, h2, h3⟩ := binCenters_correct hist0 0
  exact ⟨h1, h2 (by norm_num [hist0]), h3 (by norm_num [hist0])⟩

/-- Claim C7, counterexample: the claim asserts an action stops after
storing the error message, with no further commits for that request.
fetchEvent on a failed call stores the message as its third commit and
then still performs a SET_LOADING false commit, which is also its last
commit. -/
theorem fetchEvent_commits_after_error_store :
    fetchEvent (Except.error ⟨"network unreachable"⟩) =
      [Commit.SET_LOADING true, Commit.SET_ERROR none,
       Commit.SET_ERROR (some "network unreachable"),
       Commit.SET_LOADING false] ∧
    (fetchEvent (Except.error ⟨"network unreachable"⟩)).getLast? ≠
      some (Commit.SET_ERROR (some "network unreachable")) := by
  refine ⟨rfl, ?_⟩
  rw [show (fetchEvent (Except.error ⟨"network unreachable"⟩)).getLast? =
      some (Commit.SET_LOADING false) from rfl]
  simp

/-- Claim C7, amended: every action catches the Data-Client error and
stores its message in UIState.error, performs no data-field commit for
that request, and never throws past the action boundary; fetchEvent and
fetchEvents still perform their final SET_LOADING false commit after
storing the message. -/
theorem actions_error_handling (s : UIState) (err : ApiError) :
    (applyCommits s (fetchEvent (Except.error err))).error =
      some err.message ∧
    (fetchEvent (Except.error err)).countP Commit.isDataCommit = 0 ∧
    (fetchEvent (Except.error err)).getLast? =
      some (Commit.SET_LOADING false) ∧
    (applyCommits s (fetchEvents (Except.error err))).error =
      some err.message ∧
    (fetchEvents (Except.error err)).countP Commit.isDataCommit = 0 ∧
    (fetchEvents (Except.error err)).getLast? =
      some (Commit.SET_LOADING false) ∧
    (applyCommits s (fetchStatistics (Except.error err))).error =
      some err.message ∧
    (fetchStatistics (Except.error err)).countP Commit.isDataCommit = 0 ∧
    (applyCommits s (fetchDetectorConfigs (Except.error err))).error =
      some err.message ∧
    (fetchDetectorConfigs (Except.error err)).countP Commit.isDataCommit
      = 0 := by
  exact ⟨rfl, rfl, rfl, rfl, rfl, rfl, rfl, rfl, rfl, rfl⟩

/-- Claim C8: when the event is absent or has no particles array,
renderEvent returns without emitting any draw primitive, after clearing
the per-event primitives of any prior call, and leaves the fixed scene
objects untouched; the same check makes a late render after teardown
harmless. -/
theorem renderEvent_absent_event_or_particles (s : SceneState)
    (eid : String) (n : Nat) :
    renderEvent s none = ⟨s.fixedObjects, []⟩ ∧
    renderEvent s (some ⟨eid, n, none⟩) = ⟨s.fixedObjects, []⟩ ∧
    (renderEvent s none).particleMeshes.length = 0 ∧
    (renderEvent s (some ⟨eid, n, none⟩)).particleMeshes.length = 0 := by
  exact ⟨rfl, rfl, rfl, rfl⟩

/-- Every track polyline has 51 sample points. -/
theorem trackPoints_length (px py pz : ℝ) :
    (trackPoints px py pz).length = 51 := by
  simp [trackPoints, numPoints]

/-- The squared planar norm of a polar point is the squared radius. -/
theorem sq_dist_of_polar (r θ : ℝ) :
    (r * Real.cos θ) ^ 2 + (r * Real.sin θ) ^ 2 = r ^ 2 := by
  have h := Real.cos_sq_add_sin_sq θ
  linear_combination r ^ 2 * h

/-- Claim C4: the j-th sample point of the track built for momentum
(px, py, pz) is the spec formula: with t = j/50,
r = t * min(pt/20, 3.0), pt = sqrt(px^2+py^2), phi = atan2(py, px),
the emitted point is (r cos phi, t*pz/10, r sin phi) — planar y and
longitudinal z swapped; and particle i's polyline is built from exactly
its own momentum components. -/
theorem trackPoints_formula (e : Event) (ps : Particles) (i j : Nat)
    (px py pz : ℝ)
    (hps : e.particles = some ps) (hi : i < ps.px.length) (hj : j ≤ 50) :
    (renderEventMeshes (some e))[2 * i]? =
      some (trackPrimitive (ps.px.getD i 0) (ps.py.getD i 0)
        (ps.pz.getD i 0) (ps.pdg_id.getD i 0)) ∧
    (trackPoints px py pz)[j]? =
      some ⟨(j : ℝ) / 50 * min (Real.sqrt (px ^ 2 + py ^ 2) / 20) 3.0 *
              Real.cos (atan2 py px),
            (j : ℝ) / 50 * pz / 10,
            (j : ℝ) / 50 * min (Real.sqrt (px ^ 2 + py ^ 2) / 20) 3.0 *
              Real.sin (atan2 py px)⟩ := by
  constructor
  · simp only [renderEventMeshes, hps]
    exact flatMap_pair_getElem_left _ _ _ _ hi
  · have hj51 : j < 50 + 1 := by omega
    have hpt : px * px + py * py = px ^ 2 + py ^ 2 := by ring
    simp [trackPoints, trackPoint, numPoints, maxR, List.getElem?_map,
      List.getElem?_range hj51, hpt]

/-- Claim C4 witness: the theorem at the fixture event (particle index 0)
and at momentum (3, 4, 5), sample index 25. -/
theorem trackPoints_formula_witness :
    (renderEventMeshes (some ev0))[2 * 0]? =
      some (trackPrimitive (ps0.px.getD 0 0) (ps0.py.getD 0 0)
        (ps0.pz.getD 0 0) (ps0.pdg_id.getD 0 0)) ∧
    (trackPoints 3 4 5)[25]? =
      some ⟨(25 : ℝ) / 50 *
              min (Real.sqrt ((3 : ℝ) ^ 2 + (4 : ℝ) ^ 2) / 20) 3.0 *
              Real.cos (atan2 4 3),
            (25 : ℝ) / 50 * 5 / 10,
            (25 : ℝ) / 50 *
              min (Real.sqrt ((3 : ℝ) ^ 2 + (4 : ℝ) ^ 2) / 20) 3.0 *
              Real.sin (atan2 4 3)⟩ := by
  have h := trackPoints_formula ev0 ps0 0 25 3 4 5 rfl
    (by norm_num [ps0]) (by norm_num)
  simpa using h

/-- Claim C5: for parallel particle arrays of any length M, one
renderEvent call replaces the per-event registry wholesale — its content
afterwards is exactly the freshly emitted primitives, whatever the prior
state — holding exactly M polylines and M origin markers (2*M
primitives), and the point counts of its polylines are exactly M copies
of 51. -/
theorem renderEvent_counts (s : SceneState) (e : Event) (ps : Particles)
    (M : Nat)
    (hps : e.particles = some ps)
    (hpx : ps.px.length = M) (hpy : ps.py.length = M)
    (hpz : ps.pz.length = M) (hpdg : ps.pdg_id.length = M) :
    (renderEvent s (some e)).particleMeshes.length = 2 * M ∧
    ((renderEvent s (some e)).particleMeshes.filter
      Primitive.isLine).length = M ∧
    ((renderEvent s (some e)).particleMeshes.filter
      Primitive.isMarker).length = M ∧
    linePointCounts (renderEvent s (some e)).particleMeshes =
      List.replicate M 51 ∧
    (renderEvent s (some e)).particleMeshes = renderEventMeshes (some e) := by
  have hmesh : (renderEvent s (some e)).particleMeshes =
      renderEventMeshes (some e) := by
    rw [renderEvent_eq]
  have hrem : renderEventMeshes (some e) =
      (List.range M).flatMap (fun i =>
        [trackPrimitive (ps.px.getD i 0) (ps.py.getD i 0) (ps.pz.getD i 0)
          (ps.pdg_id.getD i 0),
         markerPrimitive (ps.pdg_id.getD i 0)]) := by
    simp only [renderEventMeshes, hps, hpx]
  refine ⟨?_, ?_, ?_, ?_, hmesh⟩
  · rw [hmesh, hrem, flatMap_pair_length]
  · rw [hmesh, hrem]
    exact flatMap_pair_filter_fst _ _ _ _ (fun k => rfl) (fun k => rfl)
  · rw [hmesh, hrem]
    exact flatMap_pair_filter_snd _ _ _ _ (fun k => rfl) (fun k => rfl)
  · rw [hmesh, hrem]
    refine linePointCounts_pair M _ _ (fun k => ?_) (fun k => ?_)
    · simp [linePointCounts, trackPrimitive, trackPoints_length]
    · simp [linePointCounts, markerPrimitive]

/-- Claim C5 witness: the theorem at the fixture scene (with a stale
marker registered from a prior call) and the one-particle fixture
event. -/
theorem renderEvent_counts_witness :
    (renderEvent scene0 (some ev0)).particleMeshes.length = 2 * 1 ∧
    ((renderEvent scene0 (some ev0)).particleMeshes.filter
      Primitive.isLine).length = 1 ∧
    ((renderEvent scene0 (some ev0)).particleMeshes.filter
      Primitive.isMarker).length = 1 ∧
    linePointCounts (renderEvent scene0 (some ev0)).particleMeshes =
      List.replicate 1 51 ∧
    (renderEvent scene0 (some ev0)).particleMeshes =
      renderEventMeshes (some ev0) :=
  renderEvent_counts scene0 ev0 ps0 1 rfl rfl rfl rfl rfl

/-- Claim C9: the track color is a pure function of the absolute value
of the particle's pdg_id, mapping 11 to red 0xff0000, 13 to green
0x00ff00, 22 to yellow 0xffff00 and everything else to cyan 0x00ffff;
the polyline at even position 2i and the marker at odd position 2i+1 of
the emitted primitives carry that same color, computed from particle i's
own pdg_id only. -/
theorem color_assignment (a b idc : Int) (e : Event) (ps : Particles)
    (i : Nat)
    (hab : a.natAbs = b.natAbs) (hps : e.particles = some ps)
    (hi : i < ps.px.length) :
    trackColor a.natAbs = trackColor b.natAbs ∧
    trackColor idc.natAbs =
      (if idc.natAbs = 11 then 0xff0000
       else if idc.natAbs = 13 then 0x00ff00
       else if idc.natAbs = 22 then 0xffff00
       else 0x00ffff) ∧
    (renderEventMeshes (some e))[2 * i]? =
      some (Primitive.line
        (trackPoints (ps.px.getD i 0) (ps.py.getD i 0) (ps.pz.getD i 0))
        (trackColor (ps.pdg_id.getD i 0).natAbs)) ∧
    (renderEventMeshes (some e))[2 * i + 1]? =
      some (Primitive.sphereMarker ⟨0, 0, 0⟩ 0.05
        (trackColor (ps.pdg_id.getD i 0).natAbs)) := by
  refine ⟨by rw [hab], rfl, ?_, ?_⟩
  · simp only [renderEventMeshes, hps]
    exact flatMap_pair_getElem_left _ _ _ _ hi
  · simp only [renderEventMeshes, hps]
    exact flatMap_pair_getElem_right _ _ _ _ hi

/-- Claim C9 witness: the theorem at pdg_id -11 versus 11 (equal
absolute value), at species 22, and at particle 0 of the fixture
event. -/
theorem color_assignment_witness :
    trackColor (-11 : Int).natAbs = trackColor (11 : Int).natAbs ∧
    trackColor (22 : Int).natAbs =
      (if (22 : Int).natAbs = 11 then 0xff0000
       else if (22 : Int).natAbs = 13 then 0x00ff00
       else if (22 : Int).natAbs = 22 then 0xffff00
       else 0x00ffff) ∧
    (renderEventMeshes (some ev0))[2 * 0]? =
      some (Primitive.line
        (trackPoints (ps0.px.getD 0 0) (ps0.py.getD 0 0) (ps0.pz.getD 0 0))
        (trackColor (ps0.pdg_id.getD 0 0).natAbs)) ∧
    (renderEventMeshes (some ev0))[2 * 0 + 1]? =
      some (Primitive.sphereMarker ⟨0, 0, 0⟩ 0.05
        (trackColor (ps0.pdg_id.getD 0 0).natAbs)) :=
  color_assignment (-11) 11 22 ev0 ps0 0 (by decide) rfl
    (by norm_num [ps0])

/-- Claim C10: for any momentum, the first sample point of the polyline
is the origin, every sample point lies at planar distance at most 3.0
from the beam axis (the display y axis), and every sphere marker emitted
by any renderEvent call sits at the origin. -/
theorem track_invariants (px py pz : ℝ) (j k : Nat) (p : Vec3)
    (e : Event) (pos : Vec3) (rad : ℝ) (c : Nat)
    (hp : (trackPoints px py pz)[j]? = some p)
    (hm : (renderEventMeshes (some e))[k]? =
      some (Primitive.sphereMarker pos rad c)) :
    (trackPoints px py pz)[0]? = some ⟨0, 0, 0⟩ ∧
    Real.sqrt (p.x ^ 2 + p.z ^ 2) ≤ 3 ∧
    pos = ⟨0, 0, 0⟩ := by
  have h0lt : 0 < numPoints + 1 := by norm_num [numPoints]
  refine ⟨?_, ?_, ?_⟩
  · have hfst : (trackPoints px py pz)[0]? =
        some (trackPoint px py pz 0) := by
      simp [trackPoints, List.getElem?_map, List.getElem?_range h0lt]
    rw [hfst]
    have hzero : trackPoint px py pz 0 = ⟨0, 0, 0⟩ := by
      simp [trackPoint]
    rw [hzero]
  · obtain ⟨hjlen, hpj⟩ := List.getElem?_eq_some.mp hp
    have hj50 : j ≤ 50 := by
      have := hjlen
      rw [trackPoints_length] at this
      omega
    have hptk : p = trackPoint px py pz j := by
      rw [← hpj]
      simp [trackPoints, List.getElem_map, List.getElem_range]
    have hm0 : (0 : ℝ) ≤ min (Real.sqrt (px * px + py * py) / 20) maxR := by
      apply le_min
      · positivity
      · norm_num [maxR]
    have ht0 : (0 : ℝ) ≤ (j : ℝ) / (numPoints : ℝ) := by positivity
    have ht1 : (j : ℝ) / (numPoints : ℝ) ≤ 1 := by
      rw [div_le_one (by norm_num [numPoints])]
      norm_num [numPoints]
      exact_mod_cast hj50
    have hr0 : (0 : ℝ) ≤ (j : ℝ) / (numPoints : ℝ) *
        min (Real.sqrt (px * px + py * py) / 20) maxR :=
      mul_nonneg ht0 hm0
    have hr3 : (j : ℝ) / (numPoints : ℝ) *
        min (Real.sqrt (px * px + py * py) / 20) maxR ≤ 3 := by
      calc (j : ℝ) / (numPoints : ℝ) *
            min (Real.sqrt (px * px + py * py) / 20) maxR
          ≤ min (Real.sqrt (px * px + py * py) / 20) maxR :=
            mul_le_of_le_one_left hm0 ht1
        _ ≤ maxR := min_le_right _ _
        _ = 3 := by norm_num [maxR]
    have hsum : p.x ^ 2 + p.z ^ 2 =
        ((j : ℝ) / (numPoints : ℝ) *
          min (Real.sqrt (px * px + py * py) / 20) maxR) ^ 2 := by
      rw [hptk]
      exact sq_dist_of_polar _ _
    rw [hsum, Real.sqrt_sq hr0]
    exact hr3
  · have hmem := List.getElem?_mem hm
    obtain ⟨eid, np, particles⟩ := e
    cases particles with
    | none => simp [renderEventMeshes] at hmem
    | some ps =>
      simp only [renderEventMeshes] at hmem
      rw [List.mem_flatMap] at hmem
      obtain ⟨i, hi, hmem2⟩ := hmem
      simp only [trackPrimitive, markerPrimitive, List.mem_cons,
        List.mem_singleton, List.not_mem_nil, or_false] at hmem2
      rcases hmem2 with hm1 | hm2
      · exact absurd hm1 (by simp)
      · obtain ⟨hpos, -, -⟩ := Primitive.sphereMarker.inj hm2
        exact hpos

/-- Claim C10 witness: the theorem at momentum (0, 0, 0), sample index 1
of its polyline, and the marker at position 1 of the fixture event's
emitted primitives. -/
theorem track_invariants_witness :
    (trackPoints 0 0 0)[0]? = some ⟨0, 0, 0⟩ ∧
    Real.sqrt ((trackPoint 0 0 0 1).x ^ 2 + (trackPoint 0 0 0 1).z ^ 2)
      ≤ 3 ∧
    (⟨0, 0, 0⟩ : Vec3) = ⟨0, 0, 0⟩ :=
  track_invariants 0 0 0 1 1 (trackPoint 0 0 0 1) ev0 ⟨0, 0, 0⟩ 0.05
    (trackColor (11 : Int).natAbs)
    (by simp [trackPoints, List.getElem?_map,
      List.getElem?_range (show 1 < numPoints + 1 by norm_num [numPoints])])
    rfl

end Collider
